import Mathlib

/-!
Shallow embedding of `src/gpu/dpcpp_ccl.cpp` (the XPU dispatch stubs of the
oneCCL bindings for PyTorch) and proofs about its collective entry points.

Tensor metadata is modelled as a record of the fields the file inspects
(scalar type, sizes, sparsity, contiguity, device); tensor contents, where a
claim is about data movement, are modelled as lists of elements.  Exceptions
thrown by the C++ code are modelled as `Except` values; the `AsyncWork`
machinery is modelled as explicit state.
-/

set_option autoImplicit false

namespace DpcppCcl

/-- The tensor metadata inspected by `dpcpp_ccl.cpp`: scalar type, shape,
sparse/contiguous flags and the device (type family plus index, as returned
by `t.device().type()` and `t.get_device()`). -/
structure ATTensor where
  scalarType : Nat
  sizes : List Nat
  isSparse : Bool
  isContiguous : Bool
  deviceType : Nat
  deviceIndex : Int
  deriving DecidableEq, Repr, Inhabited

/-- `t.numel()`: the product of the sizes. -/
def ATTensor.numel (t : ATTensor) : Nat := t.sizes.prod

/-- `t.size(0)`: the leading dimension (the C++ call requires a
non-empty shape; `headI` returns 0 on a rank-0 tensor). -/
def ATTensor.size0 (t : ATTensor) : Nat := t.sizes.headI

/-- The per-tensor loop body of `check_tensors_properties` (lines 61-81):
each tensor is compared against the first one and its device index is
inserted into the `usedDevices` set; the first failing check throws. -/
def checkLoop (first : ATTensor) : List Int → List ATTensor → Except String Unit
  | _, [] => .ok ()
  | used, t :: ts =>
    if t.isSparse then .error "Tensors must be dense"
    else if t.scalarType ≠ first.scalarType then .error "Tensors must have identical type"
    else if t.sizes ≠ first.sizes then .error "Tensors must have identical size"
    else if ¬ t.isContiguous then .error "Tensors must be contiguous"
    else if first.deviceType ≠ t.deviceType then .error "Tensors must be on the same device type"
    else if t.deviceIndex ∈ used then .error "Tensors must be on distinct devices"
    else checkLoop first (t.deviceIndex :: used) ts

/-- `check_tensors_properties` (lines 44-84): validates a tensor list and
returns the shared device type.  `deviceCount` stands for the external
`xpu::dpcpp::device_count()`. -/
def check_tensors_properties (deviceCount : Nat) (tensors : List ATTensor) :
    Except String Nat :=
  if tensors.length = 0 then .error "Tensor list must be nonempty"
  else if tensors.length > deviceCount then
    .error "Tensor list mustn't be larger than the number of available GPUs"
  else
    match tensors with
    | [] => .error "Tensor list must be nonempty"
    | first :: _ => do
        checkLoop first [] tensors
        pure first.deviceType

/-- The acceptance predicate the validator is claimed to decide: non-empty,
at most `deviceCount` entries, all dense/contiguous, uniform scalar type,
shape and device type, pairwise distinct device indices. -/
def validTensorList (deviceCount : Nat) (tensors : List ATTensor) : Prop :=
  tensors ≠ [] ∧ tensors.length ≤ deviceCount ∧
  (∀ t ∈ tensors, t.isSparse = false ∧ t.isContiguous = true ∧
    t.scalarType = (tensors.headI).scalarType ∧
    t.sizes = (tensors.headI).sizes ∧
    t.deviceType = (tensors.headI).deviceType) ∧
  (tensors.map ATTensor.deviceIndex).Nodup

/-- Which condition of the contract each error message of
`check_tensors_properties` names, as a predicate on the rejected list. -/
def violatedCondition (deviceCount : Nat) (tensors : List ATTensor)
    (m : String) : Prop :=
  if m = "Tensor list must be nonempty" then tensors = []
  else if m = "Tensor list mustn't be larger than the number of available GPUs" then
    tensors.length > deviceCount
  else if m = "Tensors must be dense" then ∃ t ∈ tensors, t.isSparse = true
  else if m = "Tensors must have identical type" then
    ∃ t ∈ tensors, t.scalarType ≠ (tensors.headI).scalarType
  else if m = "Tensors must have identical size" then
    ∃ t ∈ tensors, t.sizes ≠ (tensors.headI).sizes
  else if m = "Tensors must be contiguous" then
    ∃ t ∈ tensors, t.isContiguous = false
  else if m = "Tensors must be on the same device type" then
    ∃ t ∈ tensors, t.deviceType ≠ (tensors.headI).deviceType
  else if m = "Tensors must be on distinct devices" then
    ¬ (tensors.map ATTensor.deviceIndex).Nodup
  else False

/-- A communicator bundle (`Comms`): one communicator handle plus its
streams.  The `id` records which construction produced the bundle, so that
distinct constructions yield distinct bundles. -/
structure Comms where
  id : Nat
  deriving DecidableEq, Repr, Inhabited

/-- Modelled from the spec: the process-group-scoped CommunicatorCache held
by `pg_ccl.ccl_member_` (`get_comms`/`add_comms` live outside this source
file).  `cache` is the key-to-bundle mapping; `nextId` counts the external
construction effects (stream creation, rendezvous through the kvs store and
`ccl::create_communicators`): every construction consumes one fresh id. -/
structure PGState where
  cache : List (String × Comms)
  nextId : Nat
  deriving DecidableEq, Repr

/-- Modelled from the spec: `ccl_member_->get_comms(devices_key)` — the
cache lookup. -/
def getComms (s : PGState) (key : String) : Option Comms :=
  s.cache.lookup key

/-- Modelled from the spec: `ccl_member_->add_comms(devices_key, ptr)` —
stores the freshly built bundle under the key. -/
def addComms (s : PGState) (key : String) (c : Comms) : PGState :=
  { s with cache := (key, c) :: s.cache }

/-- `get_ccl_comms` (lines 86-130): sanity-checks the key and the device
set, returns a cached bundle on a hit, and otherwise constructs streams,
rendezvous handle and communicators, stores the bundle and returns it.
Devices are identified by their indices. -/
def get_ccl_comms (s : PGState) (devices_key : String) (devices : List Nat) :
    Except String (Comms × PGState) :=
  if devices_key = "" then
    .error "Not able to create/get the CCL Communicator since the devices are empty "
  else if devices.length ≠ 1 then
    .error "Torch CCL only support one device per process now"
  else
    match getComms s devices_key with
    | some c => .ok (c, s)
    | none =>
        let c : Comms := ⟨s.nextId⟩
        .ok (c, addComms { s with nextId := s.nextId + 1 } devices_key c)

/-- The error kinds of the layer (spec section 7), carried as data:
TORCH_CHECK / validation failures (`config`), library failures surfaced by
CCL_CHECK (`lib`), and an elapsed wait bound (`timeout`). -/
inductive CclErr where
  | config (msg : String)
  | lib (msg : String)
  | timeout
  deriving DecidableEq, Repr

/-- The record of a call the dispatch closure handed to the communication
library: which primitive, with which counts. -/
inductive LibCall where
  | alltoall (perParticipantCount : Nat) (scalarType : Nat)
  | alltoallv (sendCounts : List Nat) (recvCounts : List Nat) (scalarType : Nat)
  | allgatherv (sendCount : Nat) (recvCounts : List Nat) (scalarType : Nat)
  | allreduce (count : Nat) (scalarType : Nat) (reduceOp : Nat)
  | reduce (count : Nat) (scalarType : Nat) (reduceOp : Nat) (root : Int)
  | broadcast (count : Nat) (scalarType : Nat) (root : Int)
  deriving DecidableEq, Repr

/-- The `AsyncWork` state machine (spec section 4.5):
`Running → {Completed, Failed}`. -/
inductive WorkStatus where
  | running
  | completed (call : LibCall)
  | failed (e : CclErr)
  deriving DecidableEq, Repr

/-- An `XPUWorkCCL` work object: the stored dispatch closure's outcome
(`run()` either reaches the library — recorded as the call it made — or
throws) together with the work's current state. -/
structure Work where
  runOutcome : Except CclErr LibCall
  status : WorkStatus
  deriving Repr

/-- Modelled from the spec: the `collective<get_ccl_comms, XPUWorkCCL>`
template (outside this source file) wraps the dispatch closure in a work
object in the running state. -/
def mkWork (run : Except CclErr LibCall) : Work := ⟨run, .running⟩

/-- Modelled from the spec: `work->finishAsyncWorkCCLError(cause)` (outside
this source file) records the captured cause and moves the work to
`Failed`. -/
def finishAsyncWorkCCLError (w : Work) (e : CclErr) : Work :=
  { w with status := .failed e }

/-- Modelled from the spec: `work->finishAsyncWorkCCL()` (outside this
source file) marks the dispatched work complete around its device event. -/
def finishAsyncWorkCCL (w : Work) (c : LibCall) : Work :=
  { w with status := .completed c }

/-- `execute` (lines 170-182): runs the work's closure and catches any
exception into the work's error slot; it never rethrows — its result type
is a plain `Work`, mirroring the C++ `catch (...) { ...; return; }`. -/
def execute (w : Work) : Work :=
  match w.runOutcome with
  | .error e => finishAsyncWorkCCLError w e
  | .ok c => finishAsyncWorkCCL w c

/-- Modelled from the spec: `synchronizeInternal(timeout)` (outside this
source file) blocks until the device event completes or the bound elapses;
an elapsed bound raises `TimeoutError`.  The blocking itself is temporal and
outside the embedding; `timedOut` records which way the race went. -/
def synchronizeInternal (timedOut : Bool) : Except CclErr Unit :=
  if timedOut then .error .timeout else .ok ()

/-- Modelled from the spec: `checkAndThrowException()` (outside this source
file) re-raises the failure captured in the work, if any. -/
def checkAndThrowException (w : Work) : Except CclErr Unit :=
  match w.status with
  | .failed e => .error e
  | _ => .ok ()

/-- `XPUWorkCCL::wait(timeout)` (lines 159-164): synchronize on the device
event, then check for a captured error and throw it, then `return true`. -/
def Work.wait (w : Work) (timedOut : Bool) : Except CclErr Bool := do
  let _ ← synchronizeInternal timedOut
  let _ ← checkAndThrowException w
  pure true

/-- Modelled from the spec: `checkSingleTensorHelper` (outside this source
file) validates a single buffer synchronously — dense and contiguous
storage, per the TensorSetValidator contract. -/
def checkSingleTensorHelper (t : ATTensor) : Except CclErr Unit :=
  if t.isSparse then .error (.config "tensor must be dense")
  else if ¬ t.isContiguous then .error (.config "tensor must be contiguous")
  else .ok ()

/-- Modelled from the spec: `c10d::checkSplitSizes` (host framework) —
an explicit split-size list must have one entry per participant and sum to
the tensor's leading dimension; an empty list means uniform splitting and
requires the leading dimension to divide evenly. -/
def checkSplitSizes (splitSizes : List Int) (t : ATTensor) (grpSize : Nat) :
    Except CclErr Unit :=
  if splitSizes = [] then
    if t.size0 % grpSize = 0 then .ok ()
    else .error (.config "split size does not divide tensor dim 0 size")
  else
    if splitSizes.length ≠ grpSize then
      .error (.config "number of tensor splits not equal to group size")
    else if splitSizes.sum ≠ (t.size0 : Int) then
      .error (.config "split sizes doesn't match total dim 0 size")
    else .ok ()

/-- Lines 586-600: the per-participant counts of the ragged path.  The
element count is divided by the leading dimension (explicit splits count
rows) or by the group size (uniform splits), and explicit split sizes are
scaled by the row size. -/
def alltoallvCounts (splitSizes : List Int) (t : ATTensor) (grpSize : Nat) :
    List Nat :=
  let splitsEqual := splitSizes = []
  let len :=
    if t.numel = 0 then 0
    else t.numel / (if splitsEqual then grpSize else t.size0)
  (List.range grpSize).map
    (fun i => if splitsEqual then len else (splitSizes.getD i 0).toNat * len)

/-- `XPUCCLStubs::alltoall_base_` (lines 523-623).  A synchronous throw from
the entry (the single-tensor checks and the uniform path's TORCH_CHECKs) is
an `Except.error`; otherwise the built work is executed — `execute` catches
any failure of the dispatch closure into the work's error slot — and handed
back.  `grpSize` stands both for `pg.getSize()` and for `comm.size()`, equal
under the one-device-per-process configuration. -/
def alltoall_base_ (outputTensor inputTensor : ATTensor)
    (outputSplitSizes inputSplitSizes : List Int) (grpSize : Nat) :
    Except CclErr Work := do
  let _ ← checkSingleTensorHelper inputTensor
  let _ ← checkSingleTensorHelper outputTensor
  if outputSplitSizes = [] ∧ inputSplitSizes = [] then
    if ¬ (outputTensor.numel = inputTensor.numel ∧
        outputTensor.scalarType = inputTensor.scalarType) then
      .error (.config "alltoall_base: tensors are not equal in size or data type")
    else if ¬ (outputTensor.size0 % grpSize = 0) then
      .error (.config "alltoall_base: tensor's dim 0 does not divide equally across group size")
    else
      .ok (execute (mkWork (.ok
        (.alltoall (outputTensor.numel / grpSize) outputTensor.scalarType))))
  else
    .ok (execute (mkWork (do
      let _ ← checkSplitSizes inputSplitSizes inputTensor grpSize
      let _ ← checkSplitSizes outputSplitSizes outputTensor grpSize
      pure (.alltoallv (alltoallvCounts inputSplitSizes inputTensor grpSize)
        (alltoallvCounts outputSplitSizes outputTensor grpSize)
        outputTensor.scalarType))))

/-- `flat.split_with_sizes(sizes, 0)` on a one-dimensional buffer:
consecutive chunks of the given sizes, in order. -/
def splitWithSizes {α : Type} (flat : List α) : List Nat → List (List α)
  | [] => []
  | n :: ns => flat.take n :: splitWithSizes (flat.drop n) ns

/-- The flattening copy loop of `alltoall_` (lines 659-669): the flat send
buffer is split into consecutive regions sized by the per-participant
counts (each input's element count) and
`flatInputSplits[i].copy_(inputs[i].view({-1}))` overwrites region `i` with
input `i`'s contents.  Overwriting the leading region and recursing on the
remainder of the buffer is exactly that loop. -/
def flattenInto {α : Type} : List (List α) → List α → List α
  | [], buf => buf
  | src :: rest, buf => src ++ flattenInto rest (buf.drop src.length)

/-- The send half of the `alltoall_` dispatch closure (lines 644-669): the
per-participant send counts (`computeLengthsAndCheckAndGetFlat` fills them
with each tensor's element count — that helper lives outside this source
file and is modelled from the spec), the contents of the flat buffer handed
to `ccl::alltoallv`, and whether a copy was performed.  On an already-flat
input list the single underlying buffer is used directly with no copy;
otherwise the freshly allocated buffer (`scratch` stands for its arbitrary
initial contents) is filled by the copy loop. -/
def alltoallFlattenSend {α : Type} (inputs : List (List α)) (isInputFlat : Bool)
    (underlying scratch : List α) : List Nat × List α × Bool :=
  let sendCounts := inputs.map List.length
  if isInputFlat then (sendCounts, underlying, false)
  else (sendCounts, flattenInto inputs scratch, true)

/-- The receive half of the `alltoall_` dispatch closure (lines 685-695):
after `ret_evt.wait()` the flat result is split by
`split_with_sizes(recvCounts, 0)` and chunk `i` fully overwrites destination
buffer `i` (`outputs[i].view({-1}).copy_(flatOutputSplits[i])`), so the
destination contents afterwards are the chunks themselves, in
participant-rank order. -/
def alltoallUnflattenRecv {α : Type} (flatOutput : List α) (recvCounts : List Nat) :
    List (List α) :=
  splitWithSizes flatOutput recvCounts

/-- The root-bearing options of the framework (`ReduceOptions` /
`BroadcastOptions`): `rootRank` and `rootTensor` are 64-bit integers,
`reduceOp` the reduction operator tag (unused by broadcast). -/
structure RootOptions where
  rootRank : Int
  rootTensor : Int
  reduceOp : Nat
  deriving DecidableEq, Repr

/-- `checkGPUTensor(const at::Tensor&)` (lines 244-247): its body is
commented out, so it does nothing to the tensor it is given. -/
def checkGPUTensor (t : ATTensor) : Unit := ()

/-- `checkGPUTensor(const std::vector<at::Tensor>&)` (lines 249-252): reads
`tensors[0]` with no emptiness check — on an empty vector that access is
undefined behaviour, modelled as `none`. -/
def checkGPUTensorList (tensors : List ATTensor) : Option Unit :=
  tensors.head?.map checkGPUTensor

/-- `XPUCCLStubs::allreduce_` (lines 254-290): `checkGPUTensor(tensors)`
first (reading `tensors[0]`), then the dispatch closure calls
`ccl::allreduce` on the first (only) tensor's buffer, and `execute` runs the
work.  No emptiness check and no call to `check_tensors_properties` occurs
on this path, so the result is only defined for non-empty lists. -/
def allreduce_ (tensors : List ATTensor) (opts : RootOptions) : Option Work :=
  (checkGPUTensorList tensors).bind (fun _ =>
    tensors.head?.map (fun t0 =>
      execute (mkWork (.ok (.allreduce t0.numel t0.scalarType opts.reduceOp)))))

/-- `XPUCCLStubs::reduce_` (lines 292-330): `checkGPUTensor(tensors)` first
(reading `tensors[0]`), then
`const int root = opts.rootRank * tensors.size() + opts.rootTensor` and the
dispatch closure passes that flat root to `ccl::reduce`. -/
def reduce_ (tensors : List ATTensor) (opts : RootOptions) : Option Work :=
  (checkGPUTensorList tensors).bind (fun _ =>
    tensors.head?.map (fun t0 =>
      execute (mkWork (.ok (.reduce t0.numel t0.scalarType opts.reduceOp
        (opts.rootRank * tensors.length + opts.rootTensor))))))

/-- `XPUCCLStubs::broadcast_` (lines 332-369): same shape as `reduce_`,
passing the flat root to `ccl::broadcast`. -/
def broadcast_ (tensors : List ATTensor) (opts : RootOptions) : Option Work :=
  (checkGPUTensorList tensors).bind (fun _ =>
    tensors.head?.map (fun t0 =>
      execute (mkWork (.ok (.broadcast t0.numel t0.scalarType
        (opts.rootRank * tensors.length + opts.rootTensor))))))

/-- The dispatch closure of `XPUCCLStubs::allgather_` (lines 382-414): the
per-participant receive counts are the output tensors' element counts in
list order; the caller's own slot is checked against the input's element
count (TORCH_CHECK, line 396) before `ccl::allgatherv` is reached.  The
C++ access `recvCounts[rank]` requires `rank` to be in bounds; `getD _ 0`
stands for it and the theorem carries the bound. -/
def allgatherRun (rank : Nat) (input : ATTensor) (outputs : List ATTensor) :
    Except CclErr LibCall :=
  let recvCounts := outputs.map ATTensor.numel
  if input.numel = recvCounts.getD rank 0 then
    .ok (.allgatherv input.numel recvCounts input.scalarType)
  else .error (.config "allgather: send and recv count doesn't match")

theorem checkLoop_ok_iff (first : ATTensor) (used : List Int)
    (ts : List ATTensor) :
    checkLoop first used ts = .ok () ↔
      ((∀ t ∈ ts, t.isSparse = false ∧ t.isContiguous = true ∧
          t.scalarType = first.scalarType ∧ t.sizes = first.sizes ∧
          t.deviceType = first.deviceType) ∧
        (ts.map ATTensor.deviceIndex).Nodup ∧
        ∀ t ∈ ts, t.deviceIndex ∉ used) := by
  induction ts generalizing used with
  | nil => simp [checkLoop]
  | cons t ts ih =>
    simp only [checkLoop]
    by_cases h1 : t.isSparse = true
    · rw [if_pos h1]
      refine iff_of_false (by simp) ?_
      rintro ⟨hall, -, -⟩
      simp [(hall t (by simp)).1] at h1
    rw [if_neg h1]
    by_cases h2 : t.scalarType = first.scalarType
    swap
    · rw [if_pos h2]
      refine iff_of_false (by simp) ?_
      rintro ⟨hall, -, -⟩
      exact h2 (hall t (by simp)).2.2.1
    rw [if_neg (not_not_intro h2)]
    by_cases h3 : t.sizes = first.sizes
    swap
    · rw [if_pos h3]
      refine iff_of_false (by simp) ?_
      rintro ⟨hall, -, -⟩
      exact h3 (hall t (by simp)).2.2.2.1
    rw [if_neg (not_not_intro h3)]
    by_cases h4 : t.isContiguous = true
    swap
    · rw [if_pos h4]
      refine iff_of_false (by simp) ?_
      rintro ⟨hall, -, -⟩
      exact h4 (hall t (by simp)).2.1
    rw [if_neg (not_not_intro h4)]
    by_cases h5 : first.deviceType = t.deviceType
    swap
    · rw [if_pos h5]
      refine iff_of_false (by simp) ?_
      rintro ⟨hall, -, -⟩
      exact h5 (hall t (by simp)).2.2.2.2.symm
    rw [if_neg (not_not_intro h5)]
    by_cases h6 : t.deviceIndex ∈ used
    · rw [if_pos h6]
      refine iff_of_false (by simp) ?_
      rintro ⟨-, -, hnu⟩
      exact hnu t (by simp) h6
    · rw [if_neg h6]
      rw [ih]
      have hsp : t.isSparse = false := by simpa using h1
      have hty : t.scalarType = first.scalarType := h2
      have hsz : t.sizes = first.sizes := h3
      have hdt : t.deviceType = first.deviceType := h5.symm
      constructor
      · rintro ⟨hall, hnd, hnu⟩
        refine ⟨?_, ?_, ?_⟩
        · intro u hu
          rcases List.mem_cons.mp hu with rfl | hu
          · exact ⟨hsp, h4, hty, hsz, hdt⟩
          · exact hall u hu
        · simp only [List.map_cons, List.nodup_cons]
          refine ⟨fun hmem => ?_, hnd⟩
          obtain ⟨u, hu, he⟩ := List.mem_map.mp hmem
          exact (hnu u hu) (by simp [he])
        · intro u hu
          rcases List.mem_cons.mp hu with rfl | hu
          · exact h6
          · intro hmem
            exact (hnu u hu) (List.mem_cons_of_mem _ hmem)
      · rintro ⟨hall, hnd, hnu⟩
        simp only [List.map_cons, List.nodup_cons] at hnd
        refine ⟨fun u hu => hall u (List.mem_cons_of_mem _ hu), hnd.2, ?_⟩
        intro u hu
        simp only [List.mem_cons]
        rintro (he | he)
        · exact hnd.1 (he ▸ List.mem_map.mpr ⟨u, hu, rfl⟩)
        · exact (hnu u (List.mem_cons_of_mem _ hu)) he

theorem checkLoop_error (first : ATTensor) (used : List Int)
    (ts : List ATTensor) (m : String)
    (h : checkLoop first used ts = .error m) :
    (m = "Tensors must be dense" ∧ ∃ t ∈ ts, t.isSparse = true) ∨
    (m = "Tensors must have identical type" ∧
      ∃ t ∈ ts, t.scalarType ≠ first.scalarType) ∨
    (m = "Tensors must have identical size" ∧
      ∃ t ∈ ts, t.sizes ≠ first.sizes) ∨
    (m = "Tensors must be contiguous" ∧ ∃ t ∈ ts, t.isContiguous = false) ∨
    (m = "Tensors must be on the same device type" ∧
      ∃ t ∈ ts, t.deviceType ≠ first.deviceType) ∨
    (m = "Tensors must be on distinct devices" ∧
      ¬ (used ++ ts.map ATTensor.deviceIndex).Nodup) := by
  induction ts generalizing used with
  | nil => simp [checkLoop] at h
  | cons t ts ih =>
    simp only [checkLoop] at h
    by_cases h1 : t.isSparse = true
    · rw [if_pos h1] at h
      injection h with hm; subst hm
      exact Or.inl ⟨rfl, t, by simp, h1⟩
    rw [if_neg h1] at h
    by_cases h2 : t.scalarType = first.scalarType
    swap
    · rw [if_pos h2] at h
      injection h with hm; subst hm
      exact Or.inr (Or.inl ⟨rfl, t, by simp, h2⟩)
    rw [if_neg (not_not_intro h2)] at h
    by_cases h3 : t.sizes = first.sizes
    swap
    · rw [if_pos h3] at h
      injection h with hm; subst hm
      exact Or.inr (Or.inr (Or.inl ⟨rfl, t, by simp, h3⟩))
    rw [if_neg (not_not_intro h3)] at h
    by_cases h4 : t.isContiguous = true
    swap
    · rw [if_pos h4] at h
      injection h with hm; subst hm
      exact Or.inr (Or.inr (Or.inr (Or.inl ⟨rfl, t, by simp, by simpa using h4⟩)))
    rw [if_neg (not_not_intro h4)] at h
    by_cases h5 : first.deviceType = t.deviceType
    swap
    · rw [if_pos h5] at h
      injection h with hm; subst hm
      exact Or.inr (Or.inr (Or.inr (Or.inr (Or.inl ⟨rfl, t, by simp, fun he => h5 he.symm⟩))))
    rw [if_neg (not_not_intro h5)] at h
    by_cases h6 : t.deviceIndex ∈ used
    · rw [if_pos h6] at h
      injection h with hm; subst hm
      refine Or.inr (Or.inr (Or.inr (Or.inr (Or.inr ⟨rfl, fun hnd => ?_⟩))))
      have hmem : t.deviceIndex ∈ List.map ATTensor.deviceIndex (t :: ts) := by simp
      exact (List.disjoint_of_nodup_append hnd) h6 hmem
    rw [if_neg h6] at h
    rcases ih _ h with h' | h' | h' | h' | h' | h'
    · exact Or.inl ⟨h'.1, by obtain ⟨u, hu, hp⟩ := h'.2; exact ⟨u, by simp [hu], hp⟩⟩
    · exact Or.inr (Or.inl ⟨h'.1, by obtain ⟨u, hu, hp⟩ := h'.2; exact ⟨u, by simp [hu], hp⟩⟩)
    · exact Or.inr (Or.inr (Or.inl ⟨h'.1, by obtain ⟨u, hu, hp⟩ := h'.2; exact ⟨u, by simp [hu], hp⟩⟩))
    · exact Or.inr (Or.inr (Or.inr (Or.inl ⟨h'.1, by obtain ⟨u, hu, hp⟩ := h'.2; exact ⟨u, by simp [hu], hp⟩⟩)))
    · exact Or.inr (Or.inr (Or.inr (Or.inr (Or.inl ⟨h'.1, by obtain ⟨u, hu, hp⟩ := h'.2; exact ⟨u, by simp [hu], hp⟩⟩))))
    · refine Or.inr (Or.inr (Or.inr (Or.inr (Or.inr ⟨h'.1, fun hnd => h'.2 ?_⟩))))
      have hnd' : (t.deviceIndex :: (used ++ List.map ATTensor.deviceIndex ts)).Nodup := by
        refine List.perm_middle.nodup ?_
        simpa using hnd
      simpa using hnd'

theorem check_tensors_properties_cons (deviceCount : Nat) (first : ATTensor)
    (rest : List ATTensor) (h : ¬ (first :: rest).length > deviceCount) :
    check_tensors_properties deviceCount (first :: rest) =
      (checkLoop first [] (first :: rest)).bind
        (fun _ => Except.ok first.deviceType) := by
  unfold check_tensors_properties
  rw [if_neg (by simp), if_neg h]
  cases hl : checkLoop first [] (first :: rest) <;>
    simp [hl, Except.bind, bind, pure, Except.pure]

/-- C6: the tensor-set validator accepts exactly the non-empty lists of at
most `deviceCount` dense, contiguous tensors of uniform scalar type, shape
and device type on pairwise distinct devices, and each rejection carries the
message of the condition the list actually violates. -/
theorem c6_tensor_set_validator (deviceCount : Nat) (tensors : List ATTensor) :
    ((∃ dt, check_tensors_properties deviceCount tensors = .ok dt) ↔
      validTensorList deviceCount tensors) ∧
    (∀ m, check_tensors_properties deviceCount tensors = .error m →
      violatedCondition deviceCount tensors m) := by
  cases tensors with
  | nil =>
    refine ⟨?_, ?_⟩
    · simp [check_tensors_properties, validTensorList]
    · intro m hm
      simp only [check_tensors_properties, List.length_nil, if_pos rfl] at hm
      injection hm with hm
      subst hm
      rw [violatedCondition, if_pos rfl]
  | cons first rest =>
    by_cases hlen : (first :: rest).length > deviceCount
    · have hc : check_tensors_properties deviceCount (first :: rest) =
          .error "Tensor list mustn't be larger than the number of available GPUs" := by
        unfold check_tensors_properties
        rw [if_neg (by simp), if_pos hlen]
      refine ⟨?_, ?_⟩
      · rw [hc]
        simp only [reduceCtorEq, exists_false, false_iff]
        rintro ⟨-, hle, -, -⟩
        omega
      · intro m hm
        rw [hc] at hm
        injection hm with hm
        subst hm
        rw [violatedCondition, if_neg (by decide), if_pos rfl]
        exact hlen
    · rw [check_tensors_properties_cons deviceCount first rest hlen]
      cases hloop : checkLoop first [] (first :: rest) with
      | ok u =>
        cases u
        obtain ⟨hall, hnd, -⟩ := (checkLoop_ok_iff first [] (first :: rest)).mp hloop
        refine ⟨iff_of_true ⟨first.deviceType, by simp [Except.bind]⟩
          ⟨by simp, by omega, by simpa using hall, hnd⟩, ?_⟩
        intro m hm
        simp [Except.bind] at hm
      | error s =>
        rcases checkLoop_error first [] (first :: rest) s hloop with
          h' | h' | h' | h' | h' | h'
        all_goals obtain ⟨rfl, hv⟩ := h'
        · refine ⟨?_, ?_⟩
          · simp only [Except.bind, reduceCtorEq, exists_false, false_iff]
            rintro ⟨-, -, hall, -⟩
            obtain ⟨u, hu, hp⟩ := hv
            simp [(hall u hu).1] at hp
          · intro m hm
            simp only [Except.bind] at hm
            injection hm with hm
            subst hm
            rw [violatedCondition, if_neg (by decide), if_neg (by decide), if_pos rfl]
            exact hv
        · refine ⟨?_, ?_⟩
          · simp only [Except.bind, reduceCtorEq, exists_false, false_iff]
            rintro ⟨-, -, hall, -⟩
            obtain ⟨u, hu, hp⟩ := hv
            exact hp (by simpa using (hall u hu).2.2.1)
          · intro m hm
            simp only [Except.bind] at hm
            injection hm with hm
            subst hm
            rw [violatedCondition, if_neg (by decide), if_neg (by decide),
              if_neg (by decide), if_pos rfl]
            obtain ⟨u, hu, hp⟩ := hv
            exact ⟨u, hu, by simpa using hp⟩
        · refine ⟨?_, ?_⟩
          · simp only [Except.bind, reduceCtorEq, exists_false, false_iff]
            rintro ⟨-, -, hall, -⟩
            obtain ⟨u, hu, hp⟩ := hv
            exact hp (by simpa using (hall u hu).2.2.2.1)
          · intro m hm
            simp only [Except.bind] at hm
            injection hm with hm
            subst hm
            rw [violatedCondition, if_neg (by decide), if_neg (by decide),
              if_neg (by decide), if_neg (by decide), if_pos rfl]
            obtain ⟨u, hu, hp⟩ := hv
            exact ⟨u, hu, by simpa using hp⟩
        · refine ⟨?_, ?_⟩
          · simp only [Except.bind, reduceCtorEq, exists_false, false_iff]
            rintro ⟨-, -, hall, -⟩
            obtain ⟨u, hu, hp⟩ := hv
            simp [(hall u hu).2.1] at hp
          · intro m hm
            simp only [Except.bind] at hm
            injection hm with hm
            subst hm
            rw [violatedCondition, if_neg (by decide), if_neg (by decide),
              if_neg (by decide), if_neg (by decide), if_neg (by decide), if_pos rfl]
            exact hv
        · refine ⟨?_, ?_⟩
          · simp only [Except.bind, reduceCtorEq, exists_false, false_iff]
            rintro ⟨-, -, hall, -⟩
            obtain ⟨u, hu, hp⟩ := hv
            exact hp (by simpa using (hall u hu).2.2.2.2)
          · intro m hm
            simp only [Except.bind] at hm
            injection hm with hm
            subst hm
            rw [violatedCondition, if_neg (by decide), if_neg (by decide),
              if_neg (by decide), if_neg (by decide), if_neg (by decide),
              if_neg (by decide), if_pos rfl]
            obtain ⟨u, hu, hp⟩ := hv
            exact ⟨u, hu, by simpa using hp⟩
        · refine ⟨?_, ?_⟩
          · simp only [Except.bind, reduceCtorEq, exists_false, false_iff]
            rintro ⟨-, -, -, hnd⟩
            exact hv (by simpa using hnd)
          · intro m hm
            simp only [Except.bind] at hm
            injection hm with hm
            subst hm
            rw [violatedCondition, if_neg (by decide), if_neg (by decide),
              if_neg (by decide), if_neg (by decide), if_neg (by decide),
              if_neg (by decide), if_neg (by decide), if_pos rfl]
            exact fun hnd => hv (by simpa using hnd)

/-- Concrete instantiation of `c6_tensor_set_validator`: a singleton list
holding a sparse tensor is rejected with the density message, and that
message names a condition the list indeed violates. -/
theorem c6_tensor_set_validator_witness :
    violatedCondition 4 [⟨0, [2], true, true, 0, 0⟩] "Tensors must be dense" :=
  (c6_tensor_set_validator 4 [⟨0, [2], true, true, 0, 0⟩]).2
    "Tensors must be dense" (by rfl)

/-- C5: the cache keeps at most one bundle per key — a hit returns the
cached bundle with the state untouched (no construction consumed), and after
any successful get the key maps to the returned bundle, so every later get
with the same key returns that same bundle and again leaves the state
unchanged. -/
theorem c5_communicator_cache_unique (s : PGState) (key : String)
    (devices : List Nat) :
    (∀ c, getComms s key = some c → key ≠ "" → devices.length = 1 →
      get_ccl_comms s key devices = .ok (c, s)) ∧
    (∀ c' s', get_ccl_comms s key devices = .ok (c', s') →
      getComms s' key = some c' ∧
      get_ccl_comms s' key devices = .ok (c', s')) := by
  constructor
  · intro c hc hk hd
    unfold get_ccl_comms
    rw [if_neg hk, if_neg (not_not_intro hd), hc]
  · intro c' s' h
    unfold get_ccl_comms at h
    by_cases hk : key = ""
    · rw [if_pos hk] at h; cases h
    rw [if_neg hk] at h
    by_cases hd : devices.length = 1
    swap
    · rw [if_pos hd] at h; cases h
    rw [if_neg (not_not_intro hd)] at h
    cases hc : getComms s key with
    | some c =>
      rw [hc] at h
      injection h with h
      cases h
      refine ⟨hc, ?_⟩
      unfold get_ccl_comms
      rw [if_neg hk, if_neg (not_not_intro hd), hc]
    | none =>
      rw [hc] at h
      injection h with h
      have hc' : c' = ⟨s.nextId⟩ ∧
          s' = addComms { s with nextId := s.nextId + 1 } key ⟨s.nextId⟩ := by
        cases h; exact ⟨rfl, rfl⟩
      obtain ⟨rfl, rfl⟩ := hc'
      have hlook : getComms (addComms { s with nextId := s.nextId + 1 } key
          ⟨s.nextId⟩) key = some ⟨s.nextId⟩ := by
        simp [getComms, addComms, List.lookup]
      refine ⟨hlook, ?_⟩
      unfold get_ccl_comms
      rw [if_neg hk, if_neg (not_not_intro hd), hlook]

/-- Concrete instantiation of `c5_communicator_cache_unique`: populate an
empty cache through a miss, then observe that a second get returns the same
bundle with the cache unchanged. -/
theorem c5_communicator_cache_unique_witness :
    getComms ⟨[("d0", ⟨0⟩)], 1⟩ "d0" = some ⟨0⟩ ∧
    get_ccl_comms ⟨[("d0", ⟨0⟩)], 1⟩ "d0" [0] = .ok (⟨0⟩, ⟨[("d0", ⟨0⟩)], 1⟩) :=
  ⟨by rfl,
    ((c5_communicator_cache_unique ⟨[("d0", ⟨0⟩)], 1⟩ "d0" [0]).2 ⟨0⟩
      ⟨[("d0", ⟨0⟩)], 1⟩ (by rfl)).2⟩

/-- C8: the cache get fails when the key is empty or the device set does not
have exactly one element (in particular when it is empty or oversubscribed),
and proceeds — returning a bundle, constructing one on a miss — exactly when
the key is non-empty and exactly one device is requested. -/
theorem c8_communicator_creation_guards (s : PGState) (key : String)
    (devices : List Nat) :
    (devices = [] → ∃ m, get_ccl_comms s key devices = .error m) ∧
    (devices.length > 1 → ∃ m, get_ccl_comms s key devices = .error m) ∧
    ((∃ r, get_ccl_comms s key devices = .ok r) ↔
      (key ≠ "" ∧ devices.length = 1)) ∧
    (key ≠ "" → devices.length = 1 → getComms s key = none →
      get_ccl_comms s key devices =
        .ok (⟨s.nextId⟩, addComms { s with nextId := s.nextId + 1 } key ⟨s.nextId⟩)) := by
  refine ⟨?_, ?_, ?_, ?_⟩
  · rintro rfl
    unfold get_ccl_comms
    by_cases hk : key = ""
    · exact ⟨_, by rw [if_pos hk]⟩
    · exact ⟨_, by rw [if_neg hk, if_pos (by simp)]⟩
  · intro hgt
    unfold get_ccl_comms
    by_cases hk : key = ""
    · exact ⟨_, by rw [if_pos hk]⟩
    · exact ⟨_, by rw [if_neg hk, if_pos (by omega)]⟩
  · constructor
    · rintro ⟨r, hr⟩
      unfold get_ccl_comms at hr
      by_cases hk : key = ""
      · rw [if_pos hk] at hr; cases hr
      rw [if_neg hk] at hr
      by_cases hd : devices.length = 1
      · exact ⟨hk, hd⟩
      · rw [if_pos hd] at hr; cases hr
    · rintro ⟨hk, hd⟩
      unfold get_ccl_comms
      rw [if_neg hk, if_neg (not_not_intro hd)]
      cases getComms s key with
      | some c => exact ⟨_, rfl⟩
      | none => exact ⟨_, rfl⟩
  · intro hk hd hmiss
    unfold get_ccl_comms
    rw [if_neg hk, if_neg (not_not_intro hd), hmiss]

/-- Concrete instantiation of `c8_communicator_creation_guards`: an empty
device set fails, and a singleton device set with a non-empty key constructs
and stores a bundle. -/
theorem c8_communicator_creation_guards_witness :
    (∃ m, get_ccl_comms ⟨[], 0⟩ "d0" [] = .error m) ∧
    get_ccl_comms ⟨[], 0⟩ "d0" [0] = .ok (⟨0⟩, ⟨[("d0", ⟨0⟩)], 1⟩) :=
  ⟨(c8_communicator_creation_guards ⟨[], 0⟩ "d0" []).1 rfl,
    (c8_communicator_creation_guards ⟨[], 0⟩ "d0" [0]).2.2.2
      (by decide) (by rfl) (by rfl)⟩

/-- C4: a throwing dispatch moves the work directly to `Failed` with the
captured cause while `execute` itself returns normally (it is a total
function into `Work`); `wait` then re-raises the captured cause, and returns
`true` on a successfully dispatched work. -/
theorem c4_asyncwork_execute_wait (run : Except CclErr LibCall) :
    (∀ e, run = .error e →
      (execute (mkWork run)).status = .failed e ∧
      (execute (mkWork run)).wait false = .error e) ∧
    (∀ c, run = .ok c →
      (execute (mkWork run)).status = .completed c ∧
      (execute (mkWork run)).wait false = .ok true) := by
  constructor
  · rintro e rfl
    exact ⟨rfl, rfl⟩
  · rintro c rfl
    exact ⟨rfl, rfl⟩

/-- Concrete instantiation of `c4_asyncwork_execute_wait`: a dispatch that
throws a library error yields a `Failed` work whose `wait` re-raises it. -/
theorem c4_asyncwork_execute_wait_witness :
    (execute (mkWork (.error (.lib "oneCCL failure")))).status =
      .failed (.lib "oneCCL failure") ∧
    (execute (mkWork (.error (.lib "oneCCL failure")))).wait false =
      .error (.lib "oneCCL failure") :=
  (c4_asyncwork_execute_wait (.error (.lib "oneCCL failure"))).1
    (.lib "oneCCL failure") rfl

/-- C2 counterexample: the output tensor of shape `[3, 2]` with group size 2
has total element count 6, divisible by 2, yet the uniform fast path raises
the configuration error instead of dispatching with per-participant count 3 —
the code validates the leading dimension, not the total element count. -/
theorem c2_uniform_fastpath_counterexample :
    (⟨0, [3, 2], false, true, 1, 0⟩ : ATTensor).numel % 2 = 0 ∧
    alltoall_base_ ⟨0, [3, 2], false, true, 1, 0⟩ ⟨0, [3, 2], false, true, 1, 0⟩
        [] [] 2 =
      .error (.config "alltoall_base: tensor's dim 0 does not divide equally across group size") :=
  ⟨rfl, rfl⟩

/-- C2 (amended): the uniform fast path validates that the leading dimension
divides the group size evenly.  When `size(0) % P = 0` it dispatches
`ccl::alltoall` with per-participant count `numel / P` (and `numel` is then
divisible by `P`); when `size(0) % P ≠ 0` it fails with the configuration
error before dispatching — in particular whenever `numel % P ≠ 0`. -/
theorem c2_uniform_fastpath (outT inT : ATTensor) (P : Nat)
    (hin : checkSingleTensorHelper inT = .ok ())
    (hout : checkSingleTensorHelper outT = .ok ())
    (hmatch : outT.numel = inT.numel ∧ outT.scalarType = inT.scalarType)
    (hrank : outT.sizes ≠ []) :
    (outT.size0 % P = 0 →
      alltoall_base_ outT inT [] [] P =
        .ok (execute (mkWork (.ok
          (.alltoall (outT.numel / P) outT.scalarType)))) ∧
      outT.numel % P = 0) ∧
    (outT.size0 % P ≠ 0 →
      alltoall_base_ outT inT [] [] P =
        .error (.config "alltoall_base: tensor's dim 0 does not divide equally across group size")) ∧
    (outT.numel % P ≠ 0 →
      alltoall_base_ outT inT [] [] P =
        .error (.config "alltoall_base: tensor's dim 0 does not divide equally across group size")) := by
  have hdiv : outT.size0 % P = 0 → outT.numel % P = 0 := by
    intro h
    obtain ⟨s0, rest, hs⟩ := List.exists_cons_of_ne_nil hrank
    have hs0 : outT.size0 = s0 := by simp [ATTensor.size0, hs]
    have h1 : P ∣ s0 := Nat.dvd_iff_mod_eq_zero.mpr (hs0 ▸ h)
    have h2 : P ∣ outT.numel := by
      rw [ATTensor.numel, hs, List.prod_cons]
      exact h1.mul_right _
    exact Nat.dvd_iff_mod_eq_zero.mp h2
  have hentry : alltoall_base_ outT inT [] [] P =
      (if ¬ (outT.size0 % P = 0) then
        .error (.config "alltoall_base: tensor's dim 0 does not divide equally across group size")
      else .ok (execute (mkWork (.ok
        (.alltoall (outT.numel / P) outT.scalarType))))) := by
    unfold alltoall_base_
    rw [hin, hout]
    simp only [bind, Except.bind]
    rw [if_pos (by simp), if_neg (not_not_intro hmatch)]
  refine ⟨?_, ?_, ?_⟩
  · intro h
    rw [hentry, if_neg (not_not_intro h)]
    exact ⟨rfl, hdiv h⟩
  · intro h
    rw [hentry, if_pos h]
  · intro h
    rw [hentry, if_pos (fun hc => h (hdiv hc))]

/-- Concrete instantiation of `c2_uniform_fastpath`: a `[4]`-element tensor
with group size 2 dispatches `ccl::alltoall` with per-participant count 2. -/
theorem c2_uniform_fastpath_witness :
    alltoall_base_ ⟨0, [4], false, true, 1, 0⟩ ⟨0, [4], false, true, 1, 0⟩
        [] [] 2 =
      .ok (execute (mkWork (.ok (.alltoall
        ((⟨0, [4], false, true, 1, 0⟩ : ATTensor).numel / 2)
        (⟨0, [4], false, true, 1, 0⟩ : ATTensor).scalarType)))) ∧
    (⟨0, [4], false, true, 1, 0⟩ : ATTensor).numel % 2 = 0 :=
  (c2_uniform_fastpath ⟨0, [4], false, true, 1, 0⟩ ⟨0, [4], false, true, 1, 0⟩
    2 rfl rfl ⟨rfl, rfl⟩ (by decide)).1 (by decide)

/-- C3 counterexample: a ragged all-to-all whose split sizes sum to 3 on a
`[4]`-element tensor does not throw to the caller — the entry point returns
`Except.ok` with a work object whose error slot already carries the
configuration error (the claim asserts such errors are raised synchronously
rather than deferred into the returned work). -/
theorem c3_sync_error_counterexample :
    alltoall_base_ ⟨0, [4], false, true, 1, 0⟩ ⟨0, [4], false, true, 1, 0⟩
        [1, 2] [1, 2] 2 =
      .ok ⟨.error (.config "split sizes doesn't match total dim 0 size"),
        .failed (.config "split sizes doesn't match total dim 0 size")⟩ :=
  rfl

/-- C3 (amended): shape checks performed outside the dispatch closure (the
uniform path's TORCH_CHECKs) do throw synchronously, but the ragged path's
split-size validation runs inside the dispatch closure: its failure is
captured by `execute` into the returned work's error slot — before any
library call is recorded — and surfaces as a thrown error only at `wait`. -/
theorem c3_error_propagation (outT inT : ATTensor)
    (outSplit inSplit : List Int) (P : Nat)
    (hin : checkSingleTensorHelper inT = .ok ())
    (hout : checkSingleTensorHelper outT = .ok ()) :
    (outSplit = [] → inSplit = [] →
      ¬ (outT.numel = inT.numel ∧ outT.scalarType = inT.scalarType) →
      alltoall_base_ outT inT outSplit inSplit P =
        .error (.config "alltoall_base: tensors are not equal in size or data type")) ∧
    (¬ (outSplit = [] ∧ inSplit = []) →
      ∀ e, checkSplitSizes inSplit inT P = .error e →
      ∃ w, alltoall_base_ outT inT outSplit inSplit P = .ok w ∧
        w.runOutcome = .error e ∧ w.status = .failed e ∧
        w.wait false = .error e) := by
  constructor
  · rintro rfl rfl hne
    unfold alltoall_base_
    rw [hin, hout]
    simp only [bind, Except.bind]
    rw [if_pos (by simp), if_pos hne]
  · intro hragged e he
    unfold alltoall_base_
    rw [hin, hout]
    simp only [bind, Except.bind]
    rw [if_neg hragged, he]
    exact ⟨⟨.error e, .failed e⟩, rfl, rfl, rfl, rfl⟩

/-- Concrete instantiation of `c3_error_propagation`: a uniform-path size
mismatch throws synchronously, while a ragged-path split-size mismatch is
returned inside the work's error slot. -/
theorem c3_error_propagation_witness :
    (alltoall_base_ ⟨0, [6], false, true, 1, 0⟩ ⟨0, [4], false, true, 1, 0⟩
        [] [] 2 =
      .error (.config "alltoall_base: tensors are not equal in size or data type")) ∧
    (∃ w, alltoall_base_ ⟨0, [4], false, true, 1, 0⟩ ⟨0, [4], false, true, 1, 0⟩
        [1, 2] [1, 2] 2 = .ok w ∧
      w.runOutcome = .error (.config "split sizes doesn't match total dim 0 size") ∧
      w.status = .failed (.config "split sizes doesn't match total dim 0 size") ∧
      w.wait false = .error (.config "split sizes doesn't match total dim 0 size")) :=
  ⟨(c3_error_propagation ⟨0, [6], false, true, 1, 0⟩ ⟨0, [4], false, true, 1, 0⟩
      [] [] 2 rfl rfl).1 rfl rfl (by decide),
    (c3_error_propagation ⟨0, [4], false, true, 1, 0⟩ ⟨0, [4], false, true, 1, 0⟩
      [1, 2] [1, 2] 2 rfl rfl).2 (by decide) _ rfl⟩

theorem flattenInto_eq_join_append {α : Type} (srcs : List (List α)) (buf : List α) :
    flattenInto srcs buf =
      srcs.flatten ++ buf.drop ((srcs.map List.length).sum) := by
  induction srcs generalizing buf with
  | nil => simp [flattenInto]
  | cons s rest ih =>
    simp only [flattenInto, ih, List.flatten_cons, List.map_cons, List.sum_cons,
      List.drop_drop, List.append_assoc]

theorem flattenInto_of_length_eq {α : Type} (srcs : List (List α)) (buf : List α)
    (h : buf.length = (srcs.map List.length).sum) :
    flattenInto srcs buf = srcs.flatten := by
  rw [flattenInto_eq_join_append, ← h, List.drop_length, List.append_nil]

theorem splitWithSizes_join {α : Type} (bs : List (List α)) :
    splitWithSizes bs.flatten (bs.map List.length) = bs := by
  induction bs with
  | nil => rfl
  | cons b bs ih =>
    simp only [List.flatten_cons, splitWithSizes, List.map_cons]
    rw [List.take_left, List.drop_left, ih]

/-- C1: for an input list that is not already flat, the copy loop fills the
flat send buffer with the buffers' contents at their participant-rank-order
offsets (the concatenation in list order), the lengths table sums to the
flat buffer's element count, and splitting the flat buffer back by that
table reproduces every per-participant content — unflatten after flatten is
the identity; an already-flat list is used directly with no copy. -/
theorem c1_alltoall_flatten_roundtrip {α : Type} (inputs : List (List α))
    (underlying scratch : List α)
    (hscratch : scratch.length = (inputs.map List.length).sum) :
    alltoallFlattenSend inputs false underlying scratch =
      (inputs.map List.length, inputs.flatten, true) ∧
    (inputs.map List.length).sum = (flattenInto inputs scratch).length ∧
    alltoallUnflattenRecv (flattenInto inputs scratch)
      (inputs.map List.length) = inputs ∧
    alltoallFlattenSend inputs true underlying scratch =
      (inputs.map List.length, underlying, false) := by
  have hfull : flattenInto inputs scratch = inputs.flatten :=
    flattenInto_of_length_eq inputs scratch hscratch
  refine ⟨?_, ?_, ?_, rfl⟩
  · simp [alltoallFlattenSend, hfull]
  · rw [hfull, List.length_flatten]
  · rw [alltoallUnflattenRecv, hfull, splitWithSizes_join]

/-- Concrete instantiation of `c1_alltoall_flatten_roundtrip`: three ragged
buffers of lengths 2, 1 and 3 flattened into a 6-element scratch buffer and
split back. -/
theorem c1_alltoall_flatten_roundtrip_witness :
    alltoallUnflattenRecv
        (flattenInto [[1, 2], [3], [4, 5, 6]] ([0, 0, 0, 0, 0, 0] : List Nat))
        ([[1, 2], [3], [4, 5, 6]].map List.length) =
      [[1, 2], [3], [4, 5, 6]] :=
  (c1_alltoall_flatten_roundtrip [[1, 2], [3], [4, 5, 6]] [] [0, 0, 0, 0, 0, 0]
    (by decide)).2.2.1

/-- C7: both root-rank collectives pass the flat root identifier
`rootRank * localDeviceCount + rootTensorIndex` to the library, where the
local device count is the tensor list's size. -/
theorem c7_flat_root_identifier (t0 : ATTensor) (rest : List ATTensor)
    (opts : RootOptions) :
    reduce_ (t0 :: rest) opts =
      some (execute (mkWork (.ok (.reduce t0.numel t0.scalarType opts.reduceOp
        (opts.rootRank * (t0 :: rest).length + opts.rootTensor))))) ∧
    broadcast_ (t0 :: rest) opts =
      some (execute (mkWork (.ok (.broadcast t0.numel t0.scalarType
        (opts.rootRank * (t0 :: rest).length + opts.rootTensor))))) :=
  ⟨rfl, rfl⟩

/-- C9: if the input's element count differs from the element count of the
output tensor at the caller's rank, the all-gather closure fails with the
mismatch error and no library call is made; otherwise the receive-count
table handed to `ccl::allgatherv` is, entry by entry, the output tensors'
element counts in list order. -/
theorem c9_allgather_recv_counts (rank : Nat) (input : ATTensor)
    (outputs : List ATTensor) (h : rank < outputs.length) :
    (input.numel ≠ (outputs.get ⟨rank, h⟩).numel →
      allgatherRun rank input outputs =
        .error (.config "allgather: send and recv count doesn't match")) ∧
    (input.numel = (outputs.get ⟨rank, h⟩).numel →
      allgatherRun rank input outputs =
        .ok (.allgatherv input.numel (outputs.map ATTensor.numel)
          input.scalarType)) := by
  have hD : (outputs.map ATTensor.numel).getD rank 0 =
      (outputs.get ⟨rank, h⟩).numel := by
    rw [List.getD_eq_getElem _ _ (by simpa using h)]
    simp
  constructor
  · intro hne
    unfold allgatherRun
    rw [if_neg (by rw [hD]; exact hne)]
  · intro heq
    unfold allgatherRun
    rw [if_pos (by rw [hD]; exact heq)]

/-- Concrete instantiation of `c9_allgather_recv_counts`: rank 0 with a
matching 4-element input and outputs of 4 and 2 elements dispatches with
receive counts `[4, 2]`; a 3-element input fails the check. -/
theorem c9_allgather_recv_counts_witness :
    allgatherRun 0 ⟨0, [4], false, true, 1, 0⟩
        [⟨0, [4], false, true, 1, 0⟩, ⟨0, [2], false, true, 1, 1⟩] =
      .ok (.allgatherv 4 [4, 2] 0) ∧
    allgatherRun 0 ⟨0, [3], false, true, 1, 0⟩
        [⟨0, [4], false, true, 1, 0⟩, ⟨0, [2], false, true, 1, 1⟩] =
      .error (.config "allgather: send and recv count doesn't match") :=
  ⟨(c9_allgather_recv_counts 0 ⟨0, [4], false, true, 1, 0⟩
      [⟨0, [4], false, true, 1, 0⟩, ⟨0, [2], false, true, 1, 1⟩]
      (by decide)).2 (by decide),
    (c9_allgather_recv_counts 0 ⟨0, [3], false, true, 1, 0⟩
      [⟨0, [4], false, true, 1, 0⟩, ⟨0, [2], false, true, 1, 1⟩]
      (by decide)).1 (by decide)⟩

/-- C10: the all-reduce, reduce and broadcast entries read `tensors[0]`
(through `checkGPUTensor`) before any emptiness check, and never invoke the
shared validator: on the empty list they are undefined (`none`), on any
non-empty list the access is defined, and even a tensor the validator would
reject (a sparse one) is dispatched untouched. -/
theorem c10_first_element_unguarded (opts : RootOptions) :
    (checkGPUTensorList [] = none ∧ allreduce_ [] opts = none ∧
      reduce_ [] opts = none ∧ broadcast_ [] opts = none) ∧
    (∀ tensors : List ATTensor, tensors ≠ [] →
      ∃ u, checkGPUTensorList tensors = some u) ∧
    (∀ (t : ATTensor) (deviceCount : Nat), t.isSparse = true →
      1 ≤ deviceCount →
      check_tensors_properties deviceCount [t] = .error "Tensors must be dense" ∧
      ∃ w, allreduce_ [t] opts = some w) := by
  refine ⟨⟨rfl, rfl, rfl, rfl⟩, ?_, ?_⟩
  · intro tensors hne
    obtain ⟨t0, rest, rfl⟩ := List.exists_cons_of_ne_nil hne
    exact ⟨(), rfl⟩
  · intro t deviceCount hsp hdc
    constructor
    · unfold check_tensors_properties
      rw [if_neg (by simp), if_neg (by simp; omega)]
      simp only [checkLoop, if_pos hsp, Except.bind, bind]
    · exact ⟨_, rfl⟩

/-- Concrete instantiation of `c10_first_element_unguarded`: a singleton
sparse tensor is rejected by the validator yet dispatched by `allreduce_`. -/
theorem c10_first_element_unguarded_witness :
    check_tensors_properties 4 [⟨0, [2], true, true, 1, 0⟩] =
      .error "Tensors must be dense" ∧
    ∃ w, allreduce_ [⟨0, [2], true, true, 1, 0⟩] ⟨0, 0, 0⟩ = some w :=
  (c10_first_element_unguarded ⟨0, 0, 0⟩).2.2 ⟨0, [2], true, true, 1, 0⟩ 4
    rfl (by decide)

end DpcppCcl
